import Mathlib

/-!
Verification of `src/keystore2/src/attestation_key_utils.rs` (attestation key
resolution). The Rust functions `use_rkpd`, `get_attest_key_info`,
`get_user_generated_attestation_key` and `load_attest_key_blob_and_cert` are
shallowly embedded below. External collaborators (system-property reads, the
two remote-provisioning paths, the database load, certificate-subject parsing)
are supplied through an `Env` record of oracle functions, and each embedded
function additionally returns the list of collaborator calls it made, so that
"collaborator X is never invoked" properties can be stated directly.
-/

namespace AttestationKeyUtils

/-- Byte vectors (`Vec<u8>`) are modelled as lists of naturals. -/
abbrev Bytes := List Nat

/-- `android.system.keystore2.Domain` (only the constructors; `BLOB` is the
one the code branches on). -/
inductive Domain where
  | APP
  | GRANT
  | KEY_ID
  | BLOB
  | SELINUX
deriving DecidableEq, Repr

/-- `android.system.keystore2.KeyDescriptor`: domain/namespace/alias/blob. -/
structure KeyDescriptor where
  domain : Domain
  nspace : Int
  alias_ : Option Bytes
  blob : Option Bytes
deriving DecidableEq, Repr

/-- The two `keymint.Tag` values the selector inspects, plus an opaque
constructor for every other tag. -/
inductive Tag where
  | ATTESTATION_CHALLENGE
  | DEVICE_UNIQUE_ATTESTATION
  | other (n : Nat)
deriving DecidableEq, Repr

instance : BEq Tag := instBEqOfDecidableEq

/-- `keymint.KeyParameter`: a tag together with an opaque payload. -/
structure KeyParameter where
  tag : Tag
  value : Nat
deriving DecidableEq, Repr

/-- `keymint.ErrorCode` values used by this file. -/
inductive ErrorCode where
  | INVALID_ARGUMENT
  | other (n : Int)
deriving DecidableEq, Repr

/-- `keystore2.ResponseCode` values used by this file. -/
inductive ResponseCode where
  | INVALID_ARGUMENT
  | PERMISSION_DENIED
  | KEY_NOT_FOUND
  | other (n : Int)
deriving DecidableEq, Repr

/-- `crate::error::Error`: either a KeyMint error code or a Keystore response
code (the `anyhow` context strings are not part of the error kind). -/
inductive KsError where
  | Km (code : ErrorCode)
  | Rc (code : ResponseCode)
  | other (n : Nat)
deriving DecidableEq, Repr

/-- Opaque handle types of the collaborators. -/
abbrev KeyIdGuard := Nat

/-- `BlobMetaData`: opaque auxiliary attributes, passed through unmodified. -/
abbrev BlobMetaData := Nat

/-- `keymint.AttestationKey` as returned by remote provisioning. -/
abbrev AttestationKey := Nat

/-- `keymint.Certificate` (chain) as returned by remote provisioning. -/
abbrev Certificate := Nat

/-- The part of a loaded `KeyEntry` that `load_attest_key_blob_and_cert`
consumes: `take_key_blob_info` and `take_cert`. -/
structure KeyEntry where
  key_blob_info : Option (Bytes × BlobMetaData)
  cert : Option Bytes
deriving DecidableEq, Repr

/-- `KeyEntry::take_key_blob_info` (consumed at most once; the embedding is
pure, so consuming is reading). -/
def KeyEntry.take_key_blob_info (e : KeyEntry) : Option (Bytes × BlobMetaData) :=
  e.key_blob_info

/-- `KeyEntry::take_cert`. -/
def KeyEntry.take_cert (e : KeyEntry) : Option Bytes :=
  e.cert

/-- `AttestationKeyInfo`: the sum-typed result of selection. -/
inductive AttestationKeyInfo where
  | RemoteProvisioned (key_id_guard : KeyIdGuard) (attestation_key : AttestationKey)
      (attestation_certs : Certificate)
  | RkpdProvisioned (attestation_key : AttestationKey) (attestation_certs : Certificate)
  | UserGenerated (key_id_guard : KeyIdGuard) (blob : Bytes)
      (blob_metadata : BlobMetaData) (issuer_subject : Bytes)
deriving DecidableEq, Repr

/-- Which external collaborator a call invoked (for "never consults X"
properties). -/
inductive Call where
  | rkpd
  | legacy
  | loadKeyEntry
deriving DecidableEq, Repr

/-- The environment of collaborators consumed by this module:
`rustutils::system_properties::read_bool`, the two `RemProvState` entry
points, `KeystoreDB::load_key_entry` (with the `KeyPerm::Use` permission
check folded into its outcome), and `parse_subject_from_certificate`. -/
structure Env where
  read_bool : String → Bool → Except Unit Bool
  get_rkpd_attestation_key_and_certs :
      KeyDescriptor → Nat → List KeyParameter →
      Except KsError (Option (AttestationKey × Certificate))
  get_remotely_provisioned_attestation_key_and_certs :
      KeyDescriptor → Nat → List KeyParameter →
      Except KsError (Option (KeyIdGuard × AttestationKey × Certificate))
  load_key_entry : KeyDescriptor → Nat → Except KsError (KeyIdGuard × KeyEntry)
  parse_subject_from_certificate : Bytes → Except KsError Bytes

/-- The system property consulted by `use_rkpd`. -/
def rkpd_property_name : String :=
  "persist.device_config.remote_key_provisioning_native.enable_rkpd"

/-- `fn use_rkpd() -> bool`: read the feature flag, defaulting to `false`
when the read fails. Read fresh on every call (the embedding takes the
current `Env`; nothing is cached). -/
def use_rkpd (env : Env) : Bool :=
  let default_value := false
  match env.read_bool rkpd_property_name default_value with
  | Except.ok b => b
  | Except.error _ => default_value

/-- `fn load_attest_key_blob_and_cert`: reject `Domain::BLOB` before any
storage access, otherwise load the entry (permission check included) and
require both the key blob and the certificate to be present. -/
def load_attest_key_blob_and_cert (env : Env) (key : KeyDescriptor)
    (caller_uid : Nat) :
    Except KsError (KeyIdGuard × Bytes × Bytes × BlobMetaData) × List Call :=
  match key.domain with
  | Domain.BLOB => (Except.error (KsError.Km ErrorCode.INVALID_ARGUMENT), [])
  | _ =>
    match env.load_key_entry key caller_uid with
    | Except.error e => (Except.error e, [Call.loadKeyEntry])
    | Except.ok (key_id_guard, key_entry) =>
      match key_entry.take_key_blob_info with
      | none =>
          (Except.error (KsError.Rc ResponseCode.INVALID_ARGUMENT), [Call.loadKeyEntry])
      | some (blob, blob_metadata) =>
        match key_entry.take_cert with
        | none =>
            (Except.error (KsError.Rc ResponseCode.INVALID_ARGUMENT), [Call.loadKeyEntry])
        | some cert =>
            (Except.ok (key_id_guard, blob, cert, blob_metadata), [Call.loadKeyEntry])

/-- `fn get_user_generated_attestation_key`: load blob and cert, then parse
the certificate subject; any failure propagates. -/
def get_user_generated_attestation_key (env : Env) (key : KeyDescriptor)
    (caller_uid : Nat) : Except KsError AttestationKeyInfo × List Call :=
  match load_attest_key_blob_and_cert env key caller_uid with
  | (Except.error e, t) => (Except.error e, t)
  | (Except.ok (key_id_guard, blob, cert, blob_metadata), t) =>
    match env.parse_subject_from_certificate cert with
    | Except.error e => (Except.error e, t)
    | Except.ok issuer_subject =>
        (Except.ok
          (AttestationKeyInfo.UserGenerated key_id_guard blob blob_metadata issuer_subject),
         t)

/-- `pub fn get_attest_key_info`: the attestation identity selector. -/
def get_attest_key_info (env : Env) (key : KeyDescriptor) (caller_uid : Nat)
    (attest_key_descriptor : Option KeyDescriptor) (params : List KeyParameter) :
    Except KsError (Option AttestationKeyInfo) × List Call :=
  let challenge_present := params.any fun kp => kp.tag == Tag.ATTESTATION_CHALLENGE
  let is_device_unique_attestation :=
    params.any fun kp => kp.tag == Tag.DEVICE_UNIQUE_ATTESTATION
  match attest_key_descriptor with
  | none =>
    if challenge_present && !is_device_unique_attestation then
      if use_rkpd env then
        ((env.get_rkpd_attestation_key_and_certs key caller_uid params).map
          (fun result =>
            result.map fun p => AttestationKeyInfo.RkpdProvisioned p.1 p.2),
         [Call.rkpd])
      else
        ((env.get_remotely_provisioned_attestation_key_and_certs key caller_uid params).map
          (fun result =>
            result.map fun p => AttestationKeyInfo.RemoteProvisioned p.1 p.2.1 p.2.2),
         [Call.legacy])
    else
      (Except.ok none, [])
  | some attest_key =>
    match get_user_generated_attestation_key env attest_key caller_uid with
    | (r, t) => (r.map some, t)

/-! ### Concrete fixtures for witness theorems -/

/-- An `APP`-domain key descriptor. -/
def kdApp : KeyDescriptor := ⟨Domain.APP, 0, some [1], none⟩

/-- A `BLOB`-domain key descriptor. -/
def kdBlob : KeyDescriptor := ⟨Domain.BLOB, 0, none, some [9]⟩

/-- A key entry exposing both a key blob (with metadata) and a certificate. -/
def entryFull : KeyEntry := ⟨some ([1, 2], 7), some [3, 4]⟩

/-- A key entry with a certificate but no key blob. -/
def entryNoBlob : KeyEntry := ⟨none, some [3, 4]⟩

/-- A params list containing exactly an attestation challenge. -/
def pChal : List KeyParameter := [⟨Tag.ATTESTATION_CHALLENGE, 0⟩]

/-- A params list with both an attestation challenge and device-unique
attestation. -/
def pChalDU : List KeyParameter :=
  [⟨Tag.ATTESTATION_CHALLENGE, 0⟩, ⟨Tag.DEVICE_UNIQUE_ATTESTATION, 0⟩]

/-- Same two tags as `pChalDU` but different order, values and an extra
unrelated tag. -/
def pChalDU2 : List KeyParameter :=
  [⟨Tag.DEVICE_UNIQUE_ATTESTATION, 1⟩, ⟨Tag.other 5, 2⟩,
   ⟨Tag.ATTESTATION_CHALLENGE, 3⟩, ⟨Tag.ATTESTATION_CHALLENGE, 4⟩]

/-- A params list with no attestation challenge. -/
def pNoChal : List KeyParameter :=
  [⟨Tag.other 5, 2⟩, ⟨Tag.DEVICE_UNIQUE_ATTESTATION, 1⟩]

/-- An environment whose flag read yields `true` and whose collaborators all
succeed. -/
def envA : Env where
  read_bool := fun _ _ => Except.ok true
  get_rkpd_attestation_key_and_certs := fun _ _ _ => Except.ok (some (5, 6))
  get_remotely_provisioned_attestation_key_and_certs :=
    fun _ _ _ => Except.ok (some (9, 5, 6))
  load_key_entry := fun _ _ => Except.ok (11, entryFull)
  parse_subject_from_certificate := fun c => Except.ok (0 :: c)

/-- An environment whose database load yields a record with a certificate but
no key blob. -/
def envB : Env where
  read_bool := fun _ _ => Except.ok false
  get_rkpd_attestation_key_and_certs := fun _ _ _ => Except.ok none
  get_remotely_provisioned_attestation_key_and_certs := fun _ _ _ => Except.ok none
  load_key_entry := fun _ _ => Except.ok (11, entryNoBlob)
  parse_subject_from_certificate := fun c => Except.ok (0 :: c)

/-- An environment whose certificate-subject parse fails. -/
def envC : Env where
  read_bool := fun _ _ => Except.error ()
  get_rkpd_attestation_key_and_certs := fun _ _ _ => Except.ok (some (5, 6))
  get_remotely_provisioned_attestation_key_and_certs :=
    fun _ _ _ => Except.ok (some (9, 5, 6))
  load_key_entry := fun _ _ => Except.ok (11, entryFull)
  parse_subject_from_certificate := fun _ => Except.error (KsError.other 3)

/-! ### Helper lemmas (shared) -/

/-- The loader's call trace is empty (BLOB short-circuit) or exactly one
database load. -/
theorem load_trace_cases (env : Env) (key : KeyDescriptor) (uid : Nat) :
    (load_attest_key_blob_and_cert env key uid).2 = [] ∨
    (load_attest_key_blob_and_cert env key uid).2 = [Call.loadKeyEntry] := by
  unfold load_attest_key_blob_and_cert
  split
  · exact Or.inl rfl
  · split
    · exact Or.inr rfl
    · split
      · exact Or.inr rfl
      · split
        · exact Or.inr rfl
        · exact Or.inr rfl

/-- The user-generated path makes exactly the loader's calls. -/
theorem user_generated_trace_eq (env : Env) (key : KeyDescriptor) (uid : Nat) :
    (get_user_generated_attestation_key env key uid).2 =
    (load_attest_key_blob_and_cert env key uid).2 := by
  unfold get_user_generated_attestation_key
  split
  next e t heq => rw [heq]
  next g b c m t heq =>
    rw [heq]
    cases env.parse_subject_from_certificate c <;> rfl

/-- The explicit-descriptor branch is definitionally the user-generated path
with its result wrapped in `some`. -/
theorem explicit_branch_eq (env : Env) (key : KeyDescriptor) (caller_uid : Nat)
    (attest_key : KeyDescriptor) (params : List KeyParameter) :
    get_attest_key_info env key caller_uid (some attest_key) params =
      ((get_user_generated_attestation_key env attest_key caller_uid).1.map some,
       (get_user_generated_attestation_key env attest_key caller_uid).2) := rfl

/-- `Domain::BLOB` short-circuits the loader before any database access. -/
theorem load_blob_domain (env : Env) (key : KeyDescriptor) (uid : Nat)
    (h : key.domain = Domain.BLOB) :
    load_attest_key_blob_and_cert env key uid =
      (Except.error (KsError.Km ErrorCode.INVALID_ARGUMENT), []) := by
  unfold load_attest_key_blob_and_cert
  rw [h]

/-! ### Claim theorems -/

/-- C1: whenever an explicit attestation-key descriptor is supplied, the
selector delegates to the key-material loader path for that descriptor — the
result is the loader path's result wrapped in `some` (so any loader error is
propagated unchanged) and the collaborator calls are exactly the loader
path's — and neither remote-provisioning collaborator is ever invoked,
whatever challenge or device-unique parameters are present. -/
theorem explicit_attest_key_never_remote (env : Env) (key : KeyDescriptor)
    (caller_uid : Nat) (attest_key : KeyDescriptor) (params : List KeyParameter) :
    (get_attest_key_info env key caller_uid (some attest_key) params).1 =
      (get_user_generated_attestation_key env attest_key caller_uid).1.map some ∧
    (get_attest_key_info env key caller_uid (some attest_key) params).2 =
      (get_user_generated_attestation_key env attest_key caller_uid).2 ∧
    Call.rkpd ∉ (get_attest_key_info env key caller_uid (some attest_key) params).2 ∧
    Call.legacy ∉ (get_attest_key_info env key caller_uid (some attest_key) params).2 := by
  have h2 : (get_attest_key_info env key caller_uid (some attest_key) params).2 =
      (load_attest_key_blob_and_cert env attest_key caller_uid).2 :=
    user_generated_trace_eq env attest_key caller_uid
  refine ⟨rfl, rfl, ?_, ?_⟩ <;>
    rcases load_trace_cases env attest_key caller_uid with h | h <;>
      rw [h2, h] <;> decide

/-- C2: an explicit attestation-key descriptor with domain `BLOB` always
yields `Km(INVALID_ARGUMENT)`, for every environment (hence independently of
caller identity and permissions) and every params list, and no database load
is ever made. -/
theorem blob_attest_key_invalid_argument (env : Env) (key : KeyDescriptor)
    (caller_uid : Nat) (attest_key : KeyDescriptor) (params : List KeyParameter)
    (h : attest_key.domain = Domain.BLOB) :
    (get_attest_key_info env key caller_uid (some attest_key) params).1 =
      Except.error (KsError.Km ErrorCode.INVALID_ARGUMENT) ∧
    Call.loadKeyEntry ∉ (get_attest_key_info env key caller_uid (some attest_key) params).2 := by
  have h1 : get_user_generated_attestation_key env attest_key caller_uid =
      (Except.error (KsError.Km ErrorCode.INVALID_ARGUMENT), []) := by
    unfold get_user_generated_attestation_key
    rw [load_blob_domain env attest_key caller_uid h]
  have heq : get_attest_key_info env key caller_uid (some attest_key) params =
      (Except.error (KsError.Km ErrorCode.INVALID_ARGUMENT), []) := by
    rw [explicit_branch_eq, h1]
    rfl
  rw [heq]
  exact ⟨rfl, by decide⟩

/-- C2 witness: a `BLOB`-domain explicit attestation key with a fully
permissive environment still fails with `Km(INVALID_ARGUMENT)` and no load. -/
theorem blob_attest_key_invalid_argument_witness :
    kdBlob.domain = Domain.BLOB ∧
    ((get_attest_key_info envA kdApp 42 (some kdBlob) pChal).1 =
      Except.error (KsError.Km ErrorCode.INVALID_ARGUMENT) ∧
     Call.loadKeyEntry ∉ (get_attest_key_info envA kdApp 42 (some kdBlob) pChal).2) :=
  ⟨rfl, blob_attest_key_invalid_argument envA kdApp 42 kdBlob pChal rfl⟩

/-- C3: with no explicit key, a challenge present and device-unique
attestation requested, the selector invokes no collaborator at all — in
particular neither remote-provisioning path — and returns `Ok(None)`,
never a shared remote-provisioned key. -/
theorem device_unique_excludes_remote_provisioning (env : Env) (key : KeyDescriptor)
    (caller_uid : Nat) (params : List KeyParameter)
    (hc : params.any (fun kp => kp.tag == Tag.ATTESTATION_CHALLENGE) = true)
    (hd : params.any (fun kp => kp.tag == Tag.DEVICE_UNIQUE_ATTESTATION) = true) :
    Call.rkpd ∉ (get_attest_key_info env key caller_uid none params).2 ∧
    Call.legacy ∉ (get_attest_key_info env key caller_uid none params).2 ∧
    (get_attest_key_info env key caller_uid none params).1 = Except.ok none := by
  have heq : get_attest_key_info env key caller_uid none params = (Except.ok none, []) := by
    unfold get_attest_key_info
    simp [hc, hd]
  rw [heq]
  exact ⟨by decide, by decide, rfl⟩

/-- C3 witness: challenge plus device-unique attestation with both remote
collaborators available still yields `Ok(None)` and no collaborator call. -/
theorem device_unique_excludes_remote_provisioning_witness :
    pChalDU.any (fun kp => kp.tag == Tag.ATTESTATION_CHALLENGE) = true ∧
    pChalDU.any (fun kp => kp.tag == Tag.DEVICE_UNIQUE_ATTESTATION) = true ∧
    (Call.rkpd ∉ (get_attest_key_info envA kdApp 42 none pChalDU).2 ∧
     Call.legacy ∉ (get_attest_key_info envA kdApp 42 none pChalDU).2 ∧
     (get_attest_key_info envA kdApp 42 none pChalDU).1 = Except.ok none) :=
  ⟨by decide, by decide,
   device_unique_excludes_remote_provisioning envA kdApp 42 pChalDU (by decide) (by decide)⟩

/-- C4: with no explicit key and no attestation-challenge parameter, the
selector returns `Ok(None)` (and performs no collaborator call) — success
with no attestation key, never an error. -/
theorem no_challenge_yields_none (env : Env) (key : KeyDescriptor)
    (caller_uid : Nat) (params : List KeyParameter)
    (hc : params.any (fun kp => kp.tag == Tag.ATTESTATION_CHALLENGE) = false) :
    get_attest_key_info env key caller_uid none params = (Except.ok none, []) := by
  unfold get_attest_key_info
  simp [hc]

/-- C4 witness: a params list without a challenge yields `Ok(None)`. -/
theorem no_challenge_yields_none_witness :
    pNoChal.any (fun kp => kp.tag == Tag.ATTESTATION_CHALLENGE) = false ∧
    get_attest_key_info envA kdApp 42 none pNoChal = (Except.ok none, []) :=
  ⟨by decide, no_challenge_yields_none envA kdApp 42 pNoChal (by decide)⟩

/-- C5: when the database load succeeds but the record lacks the key blob or
the certificate, the loader fails with `Rc(INVALID_ARGUMENT)`; nothing is
substituted for the missing part. -/
theorem incomplete_record_invalid_argument (env : Env) (key : KeyDescriptor)
    (uid : Nat) (g : KeyIdGuard) (entry : KeyEntry)
    (hdom : key.domain ≠ Domain.BLOB)
    (hload : env.load_key_entry key uid = Except.ok (g, entry))
    (hmiss : entry.key_blob_info = none ∨ entry.cert = none) :
    (load_attest_key_blob_and_cert env key uid).1 =
      Except.error (KsError.Rc ResponseCode.INVALID_ARGUMENT) := by
  unfold load_attest_key_blob_and_cert
  cases hk : key.domain
  case BLOB => exact absurd hk hdom
  all_goals (
    rcases hmiss with hb | hc2
    · simp [hload, KeyEntry.take_key_blob_info, hb]
    · cases hkb : entry.key_blob_info with
      | none => simp [hload, KeyEntry.take_key_blob_info, hkb]
      | some bi =>
        obtain ⟨b, m⟩ := bi
        simp [hload, KeyEntry.take_key_blob_info, KeyEntry.take_cert, hkb, hc2])

/-- C5 witness: a record with a certificate but no key blob yields
`Rc(INVALID_ARGUMENT)`. -/
theorem incomplete_record_invalid_argument_witness :
    kdApp.domain ≠ Domain.BLOB ∧
    envB.load_key_entry kdApp 42 = Except.ok (11, entryNoBlob) ∧
    (entryNoBlob.key_blob_info = none ∨ entryNoBlob.cert = none) ∧
    (load_attest_key_blob_and_cert envB kdApp 42).1 =
      Except.error (KsError.Rc ResponseCode.INVALID_ARGUMENT) :=
  ⟨by decide, rfl, Or.inl rfl,
   incomplete_record_invalid_argument envB kdApp 42 11 entryNoBlob (by decide) rfl
     (Or.inl rfl)⟩

/-- C6: when the loader returns lock `L`, handle bytes `H`, certificate `C`
and metadata `M`, and `C`'s subject parses to `S`, the user-generated path
produces exactly `UserGenerated` with `key_id_guard = L`, `blob = H`,
`blob_metadata = M` and `issuer_subject = S`, all passed through unmodified. -/
theorem user_generated_round_trip (env : Env) (key : KeyDescriptor) (uid : Nat)
    (L : KeyIdGuard) (H : Bytes) (C : Bytes) (M : BlobMetaData) (S : Bytes)
    (tr : List Call)
    (hload : load_attest_key_blob_and_cert env key uid = (Except.ok (L, H, C, M), tr))
    (hparse : env.parse_subject_from_certificate C = Except.ok S) :
    (get_user_generated_attestation_key env key uid).1 =
      Except.ok (AttestationKeyInfo.UserGenerated L H M S) := by
  unfold get_user_generated_attestation_key
  rw [hload]
  simp [hparse]

/-- C6 witness: handle `[1, 2]`, metadata `7`, certificate `[3, 4]` whose
subject parses to `[0, 3, 4]` assemble into the matching `UserGenerated`. -/
theorem user_generated_round_trip_witness :
    load_attest_key_blob_and_cert envA kdApp 42 =
      (Except.ok (11, [1, 2], [3, 4], 7), [Call.loadKeyEntry]) ∧
    envA.parse_subject_from_certificate [3, 4] = Except.ok [0, 3, 4] ∧
    (get_user_generated_attestation_key envA kdApp 42).1 =
      Except.ok (AttestationKeyInfo.UserGenerated 11 [1, 2] 7 [0, 3, 4]) :=
  ⟨rfl, rfl,
   user_generated_round_trip envA kdApp 42 11 [1, 2] [3, 4] 7 [0, 3, 4]
     [Call.loadKeyEntry] rfl rfl⟩

/-- C7: with no explicit key, a challenge and no device-unique attestation,
which remote-provisioning collaborator is invoked is exactly the value of the
feature flag read from the current environment (true selects RKPD, false
selects legacy), and the flag read defaults to false (legacy) when the
property is unreadable; the embedding passes the environment afresh on every
call, so no state can be carried over between calls. -/
theorem rkpd_flag_selects_collaborator (env : Env) (key : KeyDescriptor)
    (caller_uid : Nat) (params : List KeyParameter)
    (hc : params.any (fun kp => kp.tag == Tag.ATTESTATION_CHALLENGE) = true)
    (hd : params.any (fun kp => kp.tag == Tag.DEVICE_UNIQUE_ATTESTATION) = false) :
    (get_attest_key_info env key caller_uid none params).2 =
      (if use_rkpd env then [Call.rkpd] else [Call.legacy]) ∧
    (env.read_bool rkpd_property_name false = Except.ok true → use_rkpd env = true) ∧
    (env.read_bool rkpd_property_name false = Except.ok false → use_rkpd env = false) ∧
    (env.read_bool rkpd_property_name false = Except.error () → use_rkpd env = false) := by
  refine ⟨?_, ?_, ?_, ?_⟩
  · unfold get_attest_key_info
    simp only [hc, hd]
    cases hu : use_rkpd env <;> simp [hu]
  · intro h; simp [use_rkpd, h]
  · intro h; simp [use_rkpd, h]
  · intro h; simp [use_rkpd, h]

/-- C7 witness: in an environment whose flag read yields `true`, the RKPD
collaborator (and only it) is invoked. -/
theorem rkpd_flag_selects_collaborator_witness :
    pChal.any (fun kp => kp.tag == Tag.ATTESTATION_CHALLENGE) = true ∧
    pChal.any (fun kp => kp.tag == Tag.DEVICE_UNIQUE_ATTESTATION) = false ∧
    ((get_attest_key_info envA kdApp 42 none pChal).2 =
      (if use_rkpd envA then [Call.rkpd] else [Call.legacy]) ∧
     (envA.read_bool rkpd_property_name false = Except.ok true → use_rkpd envA = true) ∧
     (envA.read_bool rkpd_property_name false = Except.ok false → use_rkpd envA = false) ∧
     (envA.read_bool rkpd_property_name false = Except.error () → use_rkpd envA = false)) :=
  ⟨by decide, by decide,
   rkpd_flag_selects_collaborator envA kdApp 42 pChal (by decide) (by decide)⟩

/-- C8: a certificate-subject parse failure makes the whole user-generated
load fail with exactly the parse error, both at the loader path and through
the selector; no `UserGenerated` result is produced. -/
theorem parse_failure_propagates (env : Env) (tkey key : KeyDescriptor) (uid : Nat)
    (params : List KeyParameter) (L : KeyIdGuard) (H : Bytes) (C : Bytes)
    (M : BlobMetaData) (tr : List Call) (e : KsError)
    (hload : load_attest_key_blob_and_cert env key uid = (Except.ok (L, H, C, M), tr))
    (hparse : env.parse_subject_from_certificate C = Except.error e) :
    (get_user_generated_attestation_key env key uid).1 = Except.error e ∧
    (get_attest_key_info env tkey uid (some key) params).1 = Except.error e := by
  have h1 : (get_user_generated_attestation_key env key uid).1 = Except.error e := by
    unfold get_user_generated_attestation_key
    rw [hload]
    simp [hparse]
  refine ⟨h1, ?_⟩
  have h2 : (get_attest_key_info env tkey uid (some key) params).1 =
      (get_user_generated_attestation_key env key uid).1.map some := rfl
  rw [h2, h1]
  rfl

/-- C8 witness: a parse failure with error `other 3` is propagated verbatim
through the loader path and the selector. -/
theorem parse_failure_propagates_witness :
    load_attest_key_blob_and_cert envC kdApp 42 =
      (Except.ok (11, [1, 2], [3, 4], 7), [Call.loadKeyEntry]) ∧
    envC.parse_subject_from_certificate [3, 4] = Except.error (KsError.other 3) ∧
    ((get_user_generated_attestation_key envC kdApp 42).1 =
        Except.error (KsError.other 3) ∧
     (get_attest_key_info envC kdApp 42 (some kdApp) pChal).1 =
        Except.error (KsError.other 3)) :=
  ⟨rfl, rfl,
   parse_failure_propagates envC kdApp kdApp 42 pChal 11 [1, 2] [3, 4] 7
     [Call.loadKeyEntry] (KsError.other 3) rfl rfl⟩

/-- C9: with no explicit key, a challenge present and device-unique
attestation requested, the selector returns exactly `Ok(None)` — success with
no attestation key, never an error. -/
theorem device_unique_returns_ok_none (env : Env) (key : KeyDescriptor)
    (caller_uid : Nat) (params : List KeyParameter)
    (hc : params.any (fun kp => kp.tag == Tag.ATTESTATION_CHALLENGE) = true)
    (hd : params.any (fun kp => kp.tag == Tag.DEVICE_UNIQUE_ATTESTATION) = true) :
    get_attest_key_info env key caller_uid none params = (Except.ok none, []) := by
  unfold get_attest_key_info
  simp [hc, hd]

/-- C9 witness: challenge and device-unique attestation in a longer params
list still yield exactly `Ok(None)`. -/
theorem device_unique_returns_ok_none_witness :
    pChalDU2.any (fun kp => kp.tag == Tag.ATTESTATION_CHALLENGE) = true ∧
    pChalDU2.any (fun kp => kp.tag == Tag.DEVICE_UNIQUE_ATTESTATION) = true ∧
    get_attest_key_info envA kdApp 7 none pChalDU2 = (Except.ok none, []) :=
  ⟨by decide, by decide,
   device_unique_returns_ok_none envA kdApp 7 pChalDU2 (by decide) (by decide)⟩

/-- C10: the routing decision depends on the params list only through the
presence of the two tags: any two params lists agreeing on the presence of
the attestation-challenge tag and the device-unique-attestation tag lead to
the same collaborator calls, whatever the values, order or multiplicity of
their parameters. -/
theorem routing_depends_only_on_tags (env : Env) (key : KeyDescriptor)
    (caller_uid : Nat) (akd : Option KeyDescriptor) (p1 p2 : List KeyParameter)
    (hc : p1.any (fun kp => kp.tag == Tag.ATTESTATION_CHALLENGE) =
          p2.any (fun kp => kp.tag == Tag.ATTESTATION_CHALLENGE))
    (hd : p1.any (fun kp => kp.tag == Tag.DEVICE_UNIQUE_ATTESTATION) =
          p2.any (fun kp => kp.tag == Tag.DEVICE_UNIQUE_ATTESTATION)) :
    (get_attest_key_info env key caller_uid akd p1).2 =
    (get_attest_key_info env key caller_uid akd p2).2 := by
  cases akd with
  | some ak => rfl
  | none =>
    unfold get_attest_key_info
    simp only [hc, hd]
    cases hg : p2.any (fun kp => kp.tag == Tag.ATTESTATION_CHALLENGE) <;>
    cases hdu : p2.any (fun kp => kp.tag == Tag.DEVICE_UNIQUE_ATTESTATION) <;>
    cases hu : use_rkpd env <;>
    simp [hg, hdu, hu]

/-- C10 witness: two params lists with the same two tags present but
different order, values and multiplicity lead to the same calls. -/
theorem routing_depends_only_on_tags_witness :
    (pChalDU.any (fun kp => kp.tag == Tag.ATTESTATION_CHALLENGE) =
     pChalDU2.any (fun kp => kp.tag == Tag.ATTESTATION_CHALLENGE)) ∧
    (pChalDU.any (fun kp => kp.tag == Tag.DEVICE_UNIQUE_ATTESTATION) =
     pChalDU2.any (fun kp => kp.tag == Tag.DEVICE_UNIQUE_ATTESTATION)) ∧
    (get_attest_key_info envA kdApp 42 none pChalDU).2 =
    (get_attest_key_info envA kdApp 42 none pChalDU2).2 :=
  ⟨by decide, by decide,
   routing_depends_only_on_tags envA kdApp 42 none pChalDU pChalDU2 (by decide)
     (by decide)⟩

end AttestationKeyUtils
